import Mathlib

/-!
Verification of the `@visx/sankey` `Sankey` component
(`src/packages/visx-sankey/src/Sankey.tsx`).

The component is a thin adapter: it forwards optional configuration props to a
d3-sankey layout engine instance (calling a fluent setter only when the prop is
truthy, per JavaScript `if (prop)` semantics), invokes the engine once on the
input graph, and then either hands the computed graph to a caller-supplied
render-override function or emits default SVG shapes (one `path` per link, one
`rect` per node with all four bounds defined).

Numbers are embedded as unnormalized fractions (`Frac`: integer numerator over
a natural-number denominator) so that every arithmetic step is a primitive
integer operation; comparison is by cross-multiplication, which agrees with the
numeric order whenever denominators are positive, as they are for every value
the embedding constructs.
-/

set_option maxRecDepth 100000

namespace VisxSankey

/-- An unnormalized rational number: `num / den` with a natural denominator.
All operations keep the denominator a natural number, so the
cross-multiplication order below is the numeric order on every value built
from inputs with positive denominators. -/
structure Frac where
  num : Int
  den : Nat
deriving Repr, DecidableEq

/-- Embed an integer as a fraction. -/
def Frac.ofInt (n : Int) : Frac := ⟨n, 1⟩

instance : OfNat Frac n := ⟨⟨n, 1⟩⟩

/-- Euclid's algorithm with an explicit fuel argument, so that the kernel can
evaluate it by structural recursion. -/
def gcdFuel : Nat → Nat → Nat → Nat
  | 0, a, _ => a
  | fuel + 1, a, b => if b = 0 then a else gcdFuel fuel b (a % b)

/-- Reduce a fraction to lowest terms (keeping the result well defined when
the denominator is zero). -/
def Frac.norm (a : Frac) : Frac :=
  let g := gcdFuel (a.den + 1) a.num.natAbs a.den
  if g = 0 then a else ⟨a.num / (g : Int), a.den / g⟩

/-- Addition of fractions. -/
def Frac.add (a b : Frac) : Frac :=
  Frac.norm ⟨a.num * b.den + b.num * a.den, a.den * b.den⟩

/-- Subtraction of fractions. -/
def Frac.sub (a b : Frac) : Frac :=
  Frac.norm ⟨a.num * b.den - b.num * a.den, a.den * b.den⟩

/-- Multiplication of fractions. -/
def Frac.mul (a b : Frac) : Frac :=
  Frac.norm ⟨a.num * b.num, a.den * b.den⟩

/-- Division of fractions; the sign is moved into the numerator so the
denominator stays a natural number. -/
def Frac.div (a b : Frac) : Frac :=
  if b.num < 0 then Frac.norm ⟨-(a.num * b.den), a.den * (-b.num).toNat⟩
  else Frac.norm ⟨a.num * b.den, a.den * b.num.toNat⟩

instance : Add Frac := ⟨Frac.add⟩
instance : Sub Frac := ⟨Frac.sub⟩
instance : Mul Frac := ⟨Frac.mul⟩
instance : Div Frac := ⟨Frac.div⟩

/-- Cross-multiplication order on fractions. -/
def Frac.le (a b : Frac) : Prop := a.num * b.den ≤ b.num * a.den

instance : LE Frac := ⟨Frac.le⟩

instance (a b : Frac) : Decidable (a ≤ b) :=
  inferInstanceAs (Decidable (a.num * b.den ≤ b.num * a.den))

/-- JavaScript `Math.max` on two fractions. -/
def Frac.maxF (a b : Frac) : Frac := if a ≤ b then b else a

/-- JavaScript truthiness of an optional number prop: `undefined`, i.e.
`none`, and `0` are falsy, everything else is truthy. -/
def truthyF (o : Option Frac) : Bool :=
  match o with
  | none => false
  | some x => x.num != 0

/-- JavaScript truthiness of an optional integer prop. -/
def truthyI (o : Option Int) : Bool :=
  match o with
  | none => false
  | some x => x != 0

/-- A node of the input graph; the datum carried by a node is opaque to the
component, so a single label field stands for it. -/
structure SankeyInputNode where
  name : String
deriving Repr, DecidableEq, Inhabited

/-- A link of the input graph: source and target are node indices (d3-sankey's
default node id is the index) and `value` is the flow weight. -/
structure SankeyInputLink where
  source : Nat
  target : Nat
  value : Frac
deriving Repr, DecidableEq

/-- The input graph handed to the component as the `root` prop. -/
structure SankeyGraph where
  nodes : List SankeyInputNode
  links : List SankeyInputLink
deriving Repr, DecidableEq

/-- A node after layout: each bound may be `none` when the layout could not
place the node. -/
structure ComputedNode where
  x0 : Option Frac
  x1 : Option Frac
  y0 : Option Frac
  y1 : Option Frac
deriving Repr, DecidableEq

/-- A link after layout: endpoint coordinates used by the path generator and
the computed stroke width. The computed types leave each field optional (a
coordinate is `none` when the layout could not place the corresponding node),
which is why the component's default rendering guards every use of them. -/
structure ComputedLink where
  source : Nat
  target : Nat
  value : Frac
  sourceX1 : Option Frac
  targetX0 : Option Frac
  y0 : Option Frac
  y1 : Option Frac
  width : Option Frac
deriving Repr, DecidableEq

/-- The graph produced by the layout invocation. -/
structure ComputedGraph where
  nodes : List ComputedNode
  links : List ComputedLink
deriving Repr, DecidableEq

/-- The optional configuration props of the component that are forwarded to
the layout engine's setters (`nodeId`, `nodeWidth`, `nodePadding`,
`nodeAlign`, `extent`, `size`, `iterations`, `nodeSort`, `linkSort`). -/
structure SankeyOptionProps where
  nodeId : Option (SankeyInputNode → Nat) := none
  nodeWidth : Option Frac := none
  nodePadding : Option Frac := none
  nodeAlign : Option (SankeyInputNode → Nat → Nat) := none
  extent : Option ((Frac × Frac) × (Frac × Frac)) := none
  size : Option (Frac × Frac) := none
  iterations : Option Int := none
  nodeSort : Option (SankeyInputNode → SankeyInputNode → Int) := none
  linkSort : Option (SankeyInputLink → SankeyInputLink → Int) := none

/-- Which layout-engine setters the component invokes: the component guards
every setter call with JavaScript truthiness of the corresponding prop
(`if (nodeWidth) sankey.nodeWidth(nodeWidth);` and so on, lines 112-121 of
`Sankey.tsx`). Function- and array-valued props are truthy exactly when
defined; number-valued props are additionally falsy at `0`. -/
structure SetterCalls where
  nodeId : Bool
  nodeWidth : Bool
  nodePadding : Bool
  nodeAlign : Bool
  extent : Bool
  size : Bool
  iterations : Bool
  nodeSort : Bool
  linkSort : Bool
deriving Repr, DecidableEq

/-- The set of setter invocations the component performs for a given props
object. -/
def setterCalls (p : SankeyOptionProps) : SetterCalls :=
  { nodeId := p.nodeId.isSome
    nodeWidth := truthyF p.nodeWidth
    nodePadding := truthyF p.nodePadding
    nodeAlign := p.nodeAlign.isSome
    extent := p.extent.isSome
    size := p.size.isSome
    iterations := truthyI p.iterations
    nodeSort := p.nodeSort.isSome
    linkSort := p.linkSort.isSome }

/-- Modelled from the spec: the configuration state of the external d3-sankey
layout engine (the engine itself is a dependency, not part of this
repository's source). Field defaults are the engine's built-in defaults:
node width 24, node padding 8, extent anchored at the origin with unit size,
6 relaxation iterations, and no custom id / alignment / sort functions. -/
structure EngineConfig where
  nodeWidth : Frac := ⟨24, 1⟩
  nodePadding : Frac := ⟨8, 1⟩
  extent : (Frac × Frac) × (Frac × Frac) := ((⟨0, 1⟩, ⟨0, 1⟩), (⟨1, 1⟩, ⟨1, 1⟩))
  iterations : Int := 6
  nodeIdFn : Option (SankeyInputNode → Nat) := none
  alignFn : Option (SankeyInputNode → Nat → Nat) := none
  nodeSortFn : Option (SankeyInputNode → SankeyInputNode → Int) := none
  linkSortFn : Option (SankeyInputLink → SankeyInputLink → Int) := none

/-- The engine's node width after the component's conditional setter call. -/
def effNodeWidth (p : SankeyOptionProps) : Frac :=
  if truthyF p.nodeWidth then p.nodeWidth.getD ⟨24, 1⟩ else ⟨24, 1⟩

/-- The engine's node padding after the component's conditional setter call. -/
def effNodePadding (p : SankeyOptionProps) : Frac :=
  if truthyF p.nodePadding then p.nodePadding.getD ⟨8, 1⟩ else ⟨8, 1⟩

/-- The engine's extent after the component's conditional setter calls; the
`size` setter runs after the `extent` setter in the component, so a provided
`size` wins, setting the extent to `[[0, 0], [width, height]]`. -/
def effExtent (p : SankeyOptionProps) : (Frac × Frac) × (Frac × Frac) :=
  match p.size with
  | some (w, h) => ((⟨0, 1⟩, ⟨0, 1⟩), (w, h))
  | none =>
    match p.extent with
    | some e => e
    | none => ((⟨0, 1⟩, ⟨0, 1⟩), (⟨1, 1⟩, ⟨1, 1⟩))

/-- The engine's iteration count after the component's conditional setter
call: a falsy (`0` or omitted) `iterations` prop leaves the engine default of
`6` in place. -/
def effIterations (p : SankeyOptionProps) : Int :=
  if truthyI p.iterations then p.iterations.getD 6 else 6

/-- The full engine configuration produced by the component's conditional
setter calls. -/
def effectiveConfig (p : SankeyOptionProps) : EngineConfig :=
  { nodeWidth := effNodeWidth p
    nodePadding := effNodePadding p
    extent := effExtent p
    iterations := effIterations p
    nodeIdFn := p.nodeId
    alignFn := p.nodeAlign
    nodeSortFn := p.nodeSort
    linkSortFn := p.linkSort }

/-- The number of relaxation passes the engine performs: the configured
iteration count, clamped below at zero. -/
def relaxationPasses (c : EngineConfig) : Nat := c.iterations.toNat

/-- One round of longest-path depth propagation over the links. -/
def depthStep (links : List SankeyInputLink) (d : List Nat) : List Nat :=
  links.foldl
    (fun d l => d.set l.target (max (d.getD l.target 0) (d.getD l.source 0 + 1))) d

/-- Modelled from the spec: column (depth) assignment of each node by
longest-path breadth from the sources, iterated enough rounds to stabilize on
a DAG (on a cyclic graph the result is unspecified, as the spec leaves it). -/
def depths (g : SankeyGraph) : List Nat :=
  (depthStep g.links)^[g.nodes.length] (List.replicate g.nodes.length 0)

/-- The largest assigned depth. -/
def maxDepth (ds : List Nat) : Nat := ds.foldl max 0

/-- Modelled from the spec: the column of node `i`, using the configured
alignment function when one was set (given the node and the total column
count, clamped into range) and the longest-path depth otherwise. -/
def columnOf (cfg : EngineConfig) (g : SankeyGraph) (ds : List Nat) (i : Nat) : Nat :=
  match cfg.alignFn with
  | some align => min (align (g.nodes.getD i default) (maxDepth ds + 1)) (maxDepth ds)
  | none => ds.getD i 0

/-- The horizontal position of the left edge of a node in column `c`, spacing
`md + 1` columns evenly across the extent. -/
def xPos (cfg : EngineConfig) (md : Nat) (c : Nat) : Frac :=
  let ex0 := cfg.extent.1.1
  let ex1 := cfg.extent.2.1
  if md = 0 then ex0
  else ex0 + (Frac.ofInt c) * ((ex1 - ex0 - cfg.nodeWidth) / Frac.ofInt md)

/-- The flow value of node `i`: the larger of its total outgoing and total
incoming link values. -/
def nodeValue (g : SankeyGraph) (i : Nat) : Frac :=
  Frac.maxF
    (((g.links.filter (fun l => l.source == i)).foldl (fun s l => s + l.value) 0))
    (((g.links.filter (fun l => l.target == i)).foldl (fun s l => s + l.value) 0))

/-- The node indices assigned to column `c`. -/
def columnMembers (cols : List Nat) (c : Nat) : List Nat :=
  (List.range cols.length).filter (fun i => cols.getD i 0 == c)

/-- Modelled from the spec: the vertical scale factor, chosen as the largest
value letting every column's nodes and padding gaps fit the extent height. -/
def kyScale (g : SankeyGraph) (cfg : EngineConfig) (cols : List Nat) (md : Nat) : Frac :=
  let ey0 := cfg.extent.1.2
  let ey1 := cfg.extent.2.2
  (List.range (md + 1)).foldl
    (fun acc c =>
      let mem := columnMembers cols c
      let s := mem.foldl (fun t i => t + nodeValue g i) 0
      if (0 : Frac) ≤ s ∧ ¬s ≤ (0 : Frac) then
        let avail := ey1 - ey0 - Frac.ofInt (mem.length - 1 : Nat) * cfg.nodePadding
        let cand := avail / s
        if cand ≤ acc then cand else acc
      else acc)
    (Frac.ofInt 1)

/-- Modelled from the spec: initial vertical interval of each node, stacking
each column's nodes in order separated by the node padding. -/
def initialY (g : SankeyGraph) (cfg : EngineConfig) (cols : List Nat) (ky : Frac) :
    List (Frac × Frac) :=
  (List.range g.nodes.length).map (fun i =>
    let c := cols.getD i 0
    let before := (List.range i).filter (fun j => cols.getD j 0 == c)
    let ey0 := cfg.extent.1.2
    let off := before.foldl (fun t j => t + nodeValue g j * ky + cfg.nodePadding) 0
    let y0 := ey0 + off
    (y0, y0 + nodeValue g i * ky))

/-- Modelled from the spec: one relaxation pass, moving each node's vertical
center halfway toward the mean center of its link partners while preserving
its height. -/
def relaxStep (g : SankeyGraph) (ys : List (Frac × Frac)) : List (Frac × Frac) :=
  (List.range ys.length).map (fun i =>
    let p := ys.getD i (0, 0)
    let partnersIn := g.links.filterMap
      (fun l => if l.target == i then some l.source else none)
    let partnersOut := g.links.filterMap
      (fun l => if l.source == i then some l.target else none)
    let partners := partnersIn ++ partnersOut
    match partners with
    | [] => p
    | ps =>
      let total := (ps.map (fun j =>
        let q := ys.getD j (0, 0)
        (q.1 + q.2) / 2)).foldl (fun a b => a + b) 0
      let c := total / Frac.ofInt ps.length
      let own := (p.1 + p.2) / 2
      let m := (own + c) / 2
      let h := p.2 - p.1
      (m - h / 2, m + h / 2))

/-- The first link endpoint of the input graph that does not resolve to a
node, when one exists: the engine resolves links during `computeNodeLinks`
and raises on the first unresolvable id. -/
def missingId (g : SankeyGraph) : Option Nat :=
  g.links.findSome? (fun l =>
    if g.nodes.length ≤ l.source then some l.source
    else if g.nodes.length ≤ l.target then some l.target
    else none)

/-- Modelled from the spec: the d3-sankey layout invocation. The engine itself
is an external dependency whose source is not in this repository; this model
follows the spec's description of it. A link that references a non-existent
node fails resolution: the invocation raises (the engine's `missing: id`
error, here the unresolved index as the `Except` error) before producing any
layout, and the component does not catch it, so no rendering happens for such
a graph. Otherwise the layout succeeds: assign each node a column (breadth),
give it the configured node width horizontally, stack columns vertically with
the configured padding scaled to fit the extent, run the configured number of
relaxation passes, and give each link a width proportional to its value and
endpoint coordinates at its nodes' edges. Links resolve by node index (the
engine's default id); node and link sort functions are recorded in the
configuration but the model keeps the default input order. -/
def computeGraph (p : SankeyOptionProps) (g : SankeyGraph) : Except Nat ComputedGraph :=
  match missingId g with
  | some i => Except.error i
  | none =>
    let cfg := effectiveConfig p
    let ds := depths g
    let md := maxDepth ds
    let cols := (List.range g.nodes.length).map (columnOf cfg g ds)
    let ky := kyScale g cfg cols md
    let ys0 := initialY g cfg cols ky
    let ys := (relaxStep g)^[relaxationPasses cfg] ys0
    let nodes := (List.range g.nodes.length).map (fun i =>
      let c := cols.getD i 0
      let x0 := xPos cfg md c
      let yp := ys.getD i (0, 0)
      ({ x0 := some x0, x1 := some (x0 + cfg.nodeWidth),
         y0 := some yp.1, y1 := some yp.2 } : ComputedNode))
    let links := g.links.map (fun l =>
      let sy := ys.getD l.source (0, 0)
      let ty := ys.getD l.target (0, 0)
      { source := l.source, target := l.target, value := l.value,
        sourceX1 := some (xPos cfg md (cols.getD l.source 0) + cfg.nodeWidth),
        targetX0 := some (xPos cfg md (cols.getD l.target 0)),
        y0 := some ((sy.1 + sy.2) / 2), y1 := some ((ty.1 + ty.2) / 2),
        width := some (l.value * ky) })
    Except.ok { nodes := nodes, links := links }

/-- SVG path data for a link: either the empty path (the `''` fallback of
`d={path(link) ?? ''}`) or a cubic curve `M sx,sy C c1,c2 t`. -/
inductive PathDatum where
  | empty
  | cubic (sx sy c1x c1y c2x c2y tx ty : Frac)
deriving Repr, DecidableEq

/-- The source point of a link for the path generator: the configured source
accessor when one was set, otherwise the default `[link.source.x1, link.y0]`,
unresolvable when either coordinate is undefined. -/
def pathSourcePoint (acc : Option (ComputedLink → Frac × Frac)) (l : ComputedLink) :
    Option (Frac × Frac) :=
  match acc with
  | some f => some (f l)
  | none =>
    match l.sourceX1, l.y0 with
    | some x, some y => some (x, y)
    | _, _ => none

/-- The target point of a link for the path generator: the configured target
accessor when one was set, otherwise the default `[link.target.x0, link.y1]`. -/
def pathTargetPoint (acc : Option (ComputedLink → Frac × Frac)) (l : ComputedLink) :
    Option (Frac × Frac) :=
  match acc with
  | some f => some (f l)
  | none =>
    match l.targetX0, l.y1 with
    | some x, some y => some (x, y)
    | _, _ => none

/-- Modelled from the spec: the `sankeyLinkHorizontal` path generator (from
the external d3 libraries), producing a smooth horizontal cubic ribbon between
the resolved source and target points, or `none` when a required coordinate is
undefined. -/
def sankeyLinkHorizontal (srcAcc tgtAcc : Option (ComputedLink → Frac × Frac))
    (l : ComputedLink) : Option PathDatum :=
  match pathSourcePoint srcAcc l, pathTargetPoint tgtAcc l with
  | some (sx, sy), some (tx, ty) =>
    let mx := (sx + tx) / 2
    some (PathDatum.cubic sx sy mx sy mx ty tx ty)
  | _, _ => none

/-- The default link/node color of the component. -/
def DEFAULT_COLOR : String := "#000"

/-- The `linkProps` style passthrough: each field is `none` when the caller
did not supply it. -/
structure LinkProps where
  fill : Option String := none
  fillOpacity : Option Frac := none
  stroke : Option String := none
  strokeOpacity : Option Frac := none
  strokeWidth : Option Frac := none
  strokeDasharray : Option String := none
  strokeDashoffset : Option Frac := none
deriving Repr, DecidableEq

/-- The `nodeProps` style passthrough: each field is `none` when the caller
did not supply it. -/
structure NodeProps where
  stroke : Option String := none
  strokeOpacity : Option Frac := none
  strokeWidth : Option Frac := none
  fill : Option String := none
  fillOpacity : Option Frac := none
deriving Repr, DecidableEq

/-- The attributes of an emitted link `path` element. The component always
sets `d`, `fill`, `stroke`, `strokeWidth` and `strokeOpacity` (then spreads
`linkProps` over them); the remaining attributes exist only when `linkProps`
supplies them. -/
structure PathAttrs where
  d : PathDatum
  fill : String
  stroke : String
  strokeWidth : Frac
  strokeOpacity : Frac
  fillOpacity : Option Frac
  strokeDasharray : Option String
  strokeDashoffset : Option Frac
deriving Repr, DecidableEq

/-- The attributes of an emitted node `rect` element. -/
structure RectAttrs where
  fill : String
  x : Frac
  y : Frac
  width : Frac
  height : Frac
  stroke : Option String
  strokeOpacity : Option Frac
  strokeWidth : Option Frac
  fillOpacity : Option Frac
deriving Repr, DecidableEq

/-- The `path` element the default render emits for one link: defaults
`fill="transparent"`, `stroke=DEFAULT_COLOR`,
`strokeWidth=Math.max(1, link.width ?? 0)`, `strokeOpacity=0.5`, then the
`{...linkProps}` spread replaces every attribute `linkProps` supplies. -/
def renderLink (lp : LinkProps) (pathD : Option PathDatum) (l : ComputedLink) : PathAttrs :=
  { d := pathD.getD PathDatum.empty
    fill := lp.fill.getD "transparent"
    stroke := lp.stroke.getD DEFAULT_COLOR
    strokeWidth := lp.strokeWidth.getD (Frac.maxF 1 (l.width.getD 0))
    strokeOpacity := lp.strokeOpacity.getD ⟨1, 2⟩
    fillOpacity := lp.fillOpacity
    strokeDasharray := lp.strokeDasharray
    strokeDashoffset := lp.strokeDashoffset }

/-- The `rect` element the default render emits for one node, or `none` when
any of `y0`, `y1`, `x0`, `x1` is undefined (the component's ternary renders
`null` in that case): defaults `fill=DEFAULT_COLOR`, `width=x1-x0`,
`height=y1-y0`, `x=x0`, `y=y0`, then the `{...nodeProps}` spread replaces
every attribute `nodeProps` supplies. -/
def renderNode (np : NodeProps) (n : ComputedNode) : Option RectAttrs :=
  match n.y0, n.y1, n.x0, n.x1 with
  | some y0, some y1, some x0, some x1 =>
    some
      { fill := np.fill.getD DEFAULT_COLOR
        x := x0, y := y0, width := x1 - x0, height := y1 - y0
        stroke := np.stroke
        strokeOpacity := np.strokeOpacity
        strokeWidth := np.strokeWidth
        fillOpacity := np.fillOpacity }
  | _, _, _, _ => none

/-- The full prop set of the `Sankey` component; `R` is the render result
type of the caller's override function. -/
structure SankeyProps (R : Type) extends SankeyOptionProps where
  root : SankeyGraph
  children : Option (ComputedGraph → R) := none
  nodeProps : NodeProps := {}
  linkProps : LinkProps := {}
  sourceAccessor : Option (ComputedLink → Frac × Frac) := none
  targetAccessor : Option (ComputedLink → Frac × Frac) := none

/-- What the component returns: either the override function's result
verbatim, or the default render (a group of link `path` elements and a group
of node `rect` elements; the `null` entries of the node map render nothing
and are dropped). -/
inductive SankeyOutput (R : Type) where
  | overridden (node : R)
  | defaultRender (linkPaths : List PathAttrs) (nodeRects : List RectAttrs)

/-- The link `path` elements of the default render of a computed graph: one
per link, in order. -/
def defaultLinks {R : Type} (p : SankeyProps R) (graph : ComputedGraph) : List PathAttrs :=
  graph.links.map
    (fun l => renderLink p.linkProps
      (sankeyLinkHorizontal p.sourceAccessor p.targetAccessor l) l)

/-- The node `rect` elements of the default render of a computed graph: one
per node with all four bounds defined, in order. -/
def defaultNodes {R : Type} (p : SankeyProps R) (graph : ComputedGraph) : List RectAttrs :=
  graph.nodes.filterMap (renderNode p.nodeProps)

/-- The `Sankey` component: configure the engine (conditional setters),
compute the layout once — a layout failure propagates to the caller
unmodified, before any rendering — then either hand the computed graph to the
render-override `children` function and return its result, or emit the
default shapes. -/
def Sankey {R : Type} (p : SankeyProps R) : Except Nat (SankeyOutput R) :=
  match computeGraph p.toSankeyOptionProps p.root with
  | Except.error e => Except.error e
  | Except.ok graph =>
    Except.ok
      (match p.children with
        | some f => SankeyOutput.overridden (f graph)
        | none => SankeyOutput.defaultRender (defaultLinks p graph) (defaultNodes p graph))

/-- A two-node, one-link example graph (flow of value 10 from `a` to `b`). -/
def exGraph : SankeyGraph :=
  { nodes := [⟨"a"⟩, ⟨"b"⟩], links := [⟨0, 1, ⟨10, 1⟩⟩] }

/-- The example graph rendered with every optional prop omitted. -/
def exProps : SankeyProps Unit := { root := exGraph }

/-- A placeholder computed link, used only as a `headD` fallback. -/
def dummyLink : ComputedLink := ⟨0, 0, 0, none, none, none, none, none⟩

/-- A placeholder emitted path element, used only as a `headD` fallback. -/
def dummyPathAttrs : PathAttrs := renderLink {} none dummyLink

/-- A placeholder emitted rect element, used only as a `headD` fallback. -/
def dummyRectAttrs : RectAttrs :=
  { fill := "", x := 0, y := 0, width := 0, height := 0,
    stroke := none, strokeOpacity := none, strokeWidth := none, fillOpacity := none }

/-- The result of a successful layout, with a fallback for the error case
(used only to name the computed graph of examples whose layout succeeds). -/
def okOrElse (e : Except Nat ComputedGraph) (d : ComputedGraph) : ComputedGraph :=
  match e with
  | Except.ok g => g
  | Except.error _ => d

/-- The computed graph of the example props, whose layout succeeds. -/
def exComputed : ComputedGraph :=
  okOrElse (computeGraph exProps.toSankeyOptionProps exProps.root) ⟨[], []⟩

/-- An example graph whose single link references node index 5, which does
not exist: layout resolution fails on it before any rendering. -/
def exDanglingProps : SankeyProps Unit :=
  { root := { nodes := [⟨"a"⟩], links := [⟨0, 5, ⟨3, 1⟩⟩] } }

/-- A computed graph that reaches default rendering carrying an unplaced
pair of nodes: the single link's required path coordinates are undefined, as
the computed types permit when the layout could not place a node. -/
def exUnplacedGraph : ComputedGraph :=
  { nodes := [⟨none, none, none, none⟩, ⟨none, none, none, none⟩],
    links := [⟨0, 1, ⟨10, 1⟩, none, none, none, none, none⟩] }

/-- A computed node with all four bounds defined. -/
def exNodeFull : ComputedNode := ⟨some ⟨0, 1⟩, some ⟨24, 1⟩, some ⟨0, 1⟩, some ⟨5, 1⟩⟩

/-- An example render-override function. -/
def exOverrideF : ComputedGraph → Nat := fun g => g.nodes.length

/-- The example graph rendered with a render-override function supplied. -/
def exOverrideProps : SankeyProps Nat := { root := exGraph, children := some exOverrideF }

/-- A `linkProps` passthrough supplying a sub-unit stroke width. -/
def exHalfLinkProps : LinkProps := { strokeWidth := some ⟨1, 2⟩ }

/-- A props object that explicitly supplies `iterations = 0`. -/
def exIterZeroProps : SankeyOptionProps := { iterations := some 0 }

/-- A truthy optional number is in particular a provided one. -/
theorem truthyF_isSome {o : Option Frac} (h : truthyF o = true) : o.isSome = true := by
  cases o <;> simp_all [truthyF]

/-- A truthy optional integer is in particular a provided one. -/
theorem truthyI_isSome {o : Option Int} (h : truthyI o = true) : o.isSome = true := by
  cases o <;> simp_all [truthyI]

/-- The first argument is below the JavaScript `Math.max` of the two. -/
theorem Frac.le_maxF_left (a b : Frac) : a ≤ Frac.maxF a b := by
  unfold Frac.maxF
  split
  · assumption
  · exact Int.le_refl _

/-- C1: every layout-engine setter is invoked only when the corresponding
option is explicitly provided; every omitted option's setter is never called,
and the engine's built-in default for it is retained, never overwritten with
undefined or forced to a falsy override. -/
theorem sankey_setter_only_when_provided (p : SankeyOptionProps) :
    (((setterCalls p).nodeId = true → p.nodeId.isSome = true)
      ∧ ((setterCalls p).nodeWidth = true → p.nodeWidth.isSome = true)
      ∧ ((setterCalls p).nodePadding = true → p.nodePadding.isSome = true)
      ∧ ((setterCalls p).nodeAlign = true → p.nodeAlign.isSome = true)
      ∧ ((setterCalls p).extent = true → p.extent.isSome = true)
      ∧ ((setterCalls p).size = true → p.size.isSome = true)
      ∧ ((setterCalls p).iterations = true → p.iterations.isSome = true)
      ∧ ((setterCalls p).nodeSort = true → p.nodeSort.isSome = true)
      ∧ ((setterCalls p).linkSort = true → p.linkSort.isSome = true))
    ∧ ((p.nodeId = none → (setterCalls p).nodeId = false)
      ∧ (p.nodeWidth = none → (setterCalls p).nodeWidth = false)
      ∧ (p.nodePadding = none → (setterCalls p).nodePadding = false)
      ∧ (p.nodeAlign = none → (setterCalls p).nodeAlign = false)
      ∧ (p.extent = none → (setterCalls p).extent = false)
      ∧ (p.size = none → (setterCalls p).size = false)
      ∧ (p.iterations = none → (setterCalls p).iterations = false)
      ∧ (p.nodeSort = none → (setterCalls p).nodeSort = false)
      ∧ (p.linkSort = none → (setterCalls p).linkSort = false))
    ∧ ((p.nodeWidth = none → effNodeWidth p = ({} : EngineConfig).nodeWidth)
      ∧ (p.nodePadding = none → effNodePadding p = ({} : EngineConfig).nodePadding)
      ∧ (p.extent = none → p.size = none → effExtent p = ({} : EngineConfig).extent)
      ∧ (p.iterations = none → effIterations p = ({} : EngineConfig).iterations)
      ∧ (p.nodeId = none → (effectiveConfig p).nodeIdFn = none)
      ∧ (p.nodeAlign = none → (effectiveConfig p).alignFn = none)
      ∧ (p.nodeSort = none → (effectiveConfig p).nodeSortFn = none)
      ∧ (p.linkSort = none → (effectiveConfig p).linkSortFn = none)) := by
  refine ⟨⟨fun h => h, fun h => truthyF_isSome h, fun h => truthyF_isSome h,
          fun h => h, fun h => h, fun h => h, fun h => truthyI_isSome h,
          fun h => h, fun h => h⟩,
         ⟨?_, ?_, ?_, ?_, ?_, ?_, ?_, ?_, ?_⟩,
         ?_, ?_, ?_, ?_, ?_, ?_, ?_, ?_⟩ <;>
    intro h
  · simp [setterCalls, h]
  · simp [setterCalls, h, truthyF]
  · simp [setterCalls, h, truthyF]
  · simp [setterCalls, h]
  · simp [setterCalls, h]
  · simp [setterCalls, h]
  · simp [setterCalls, h, truthyI]
  · simp [setterCalls, h]
  · simp [setterCalls, h]
  · simp [effNodeWidth, h, truthyF]
  · simp [effNodePadding, h, truthyF]
  · intro hs
    simp [effExtent, h, hs]
  · simp [effIterations, h, truthyI]
  · simp [effectiveConfig, h]
  · simp [effectiveConfig, h]
  · simp [effectiveConfig, h]
  · simp [effectiveConfig, h]

/-- C1 witness: with every option omitted, no setter is called and the
engine defaults are retained; with a provided node width, the setter call
entails the option was provided. -/
theorem sankey_setter_only_when_provided_witness :
    (({} : SankeyOptionProps).nodeWidth = none
      ∧ (setterCalls {}).nodeWidth = false
      ∧ effNodeWidth {} = ({} : EngineConfig).nodeWidth)
    ∧ ((setterCalls { nodeWidth := some ⟨10, 1⟩ }).nodeWidth = true
      ∧ Option.isSome (SankeyOptionProps.nodeWidth { nodeWidth := some ⟨10, 1⟩ }) = true) := by
  have h1 := sankey_setter_only_when_provided {}
  have h2 := sankey_setter_only_when_provided { nodeWidth := some ⟨10, 1⟩ }
  exact ⟨⟨rfl, h1.2.1.2.1 rfl, h1.2.2.1 rfl⟩, rfl, h2.1.2.1 rfl⟩

/-- C2 counterexample: when the caller supplies `iterations = 0` the
component does not invoke the `iterations` setter (the prop is falsy), so the
engine keeps its default of 6 relaxation passes; the engine does not perform
zero passes. -/
theorem sankey_iterations_zero_counterexample :
    exIterZeroProps.iterations = some 0
    ∧ (setterCalls exIterZeroProps).iterations = false
    ∧ relaxationPasses (effectiveConfig exIterZeroProps) = 6
    ∧ ¬relaxationPasses (effectiveConfig exIterZeroProps) = 0 :=
  ⟨rfl, rfl, rfl, by decide⟩

/-- C2 amended: a supplied iteration count of zero is ignored in favor of the
engine's default of 6 relaxation passes (the setter is not invoked, exactly
as for omission), while a supplied count of 1 is forwarded and limits the
engine to a single relaxation pass. -/
theorem sankey_iterations_forwarded_only_when_nonzero (p : SankeyOptionProps) :
    (setterCalls { p with iterations := some 0 }).iterations = false
    ∧ relaxationPasses (effectiveConfig { p with iterations := some 0 }) = 6
    ∧ (setterCalls { p with iterations := none }).iterations = false
    ∧ relaxationPasses (effectiveConfig { p with iterations := none }) = 6
    ∧ (setterCalls { p with iterations := some 1 }).iterations = true
    ∧ relaxationPasses (effectiveConfig { p with iterations := some 1 }) = 1 :=
  ⟨rfl, rfl, rfl, rfl, rfl, rfl⟩

/-- C3: when a render-override `children` function is supplied and the layout
succeeds, the component returns exactly that function's result applied to the
computed graph, and it never returns the default-rendered shapes. -/
theorem sankey_children_override {R : Type} (p : SankeyProps R)
    (f : ComputedGraph → R) (h : p.children = some f) :
    (∀ g, computeGraph p.toSankeyOptionProps p.root = Except.ok g →
        Sankey p = Except.ok (SankeyOutput.overridden (f g)))
    ∧ ∀ ls ns, Sankey p ≠ Except.ok (SankeyOutput.defaultRender ls ns) := by
  constructor
  · intro g hg
    simp [Sankey, hg, h]
  · intro ls ns hc
    cases hg : computeGraph p.toSankeyOptionProps p.root <;>
      simp [Sankey, hg, h] at hc

/-- C3 witness: the example override props carry a `children` function, their
layout succeeds, and the component returns the function's result verbatim. -/
theorem sankey_children_override_witness :
    exOverrideProps.children = some exOverrideF
    ∧ computeGraph exOverrideProps.toSankeyOptionProps exOverrideProps.root
        = Except.ok exComputed
    ∧ Sankey exOverrideProps = Except.ok (SankeyOutput.overridden (exOverrideF exComputed)) :=
  ⟨rfl, rfl,
   (sankey_children_override exOverrideProps exOverrideF rfl).1 exComputed rfl⟩

/-- C4: in default-mode rendering with no caller-supplied stroke-width
override, every emitted link path of any computed graph has stroke width at
least 1, however small, negative or undefined the link's computed width is. -/
theorem sankey_link_strokeWidth_at_least_one {R : Type} (p : SankeyProps R)
    (h : p.linkProps.strokeWidth = none) :
    ∀ (graph : ComputedGraph), ∀ a ∈ defaultLinks p graph, (1 : Frac) ≤ a.strokeWidth := by
  intro graph a ha
  unfold defaultLinks at ha
  rw [List.mem_map] at ha
  obtain ⟨l, -, rfl⟩ := ha
  simp only [renderLink, h, Option.getD_none]
  exact Frac.le_maxF_left 1 _

/-- C4 witness: the example props supply no stroke-width override and the
first emitted link path of the example graph's computed layout has stroke
width at least 1. -/
theorem sankey_link_strokeWidth_at_least_one_witness :
    exProps.linkProps.strokeWidth = none
    ∧ (1 : Frac) ≤ ((defaultLinks exProps exComputed).headD dummyPathAttrs).strokeWidth :=
  ⟨rfl, sankey_link_strokeWidth_at_least_one exProps rfl exComputed
    ((defaultLinks exProps exComputed).headD dummyPathAttrs) (by decide)⟩

/-- C5 counterexample: for the computed graph whose single link has
undefined required coordinates the link's path is unresolvable (`none`), yet
the default render does not omit the link shape: it still emits one path
element, whose path data is the empty-path fallback of
`d={path(link) ?? ''}`. -/
theorem sankey_unresolvable_link_counterexample :
    sankeyLinkHorizontal exProps.sourceAccessor exProps.targetAccessor
        (exUnplacedGraph.links.headD dummyLink) = none
    ∧ (defaultLinks exProps exUnplacedGraph).length = 1
    ∧ ¬(defaultLinks exProps exUnplacedGraph).length = 0
    ∧ ((defaultLinks exProps exUnplacedGraph).headD dummyPathAttrs).d = PathDatum.empty := by
  decide

/-- C5 amended: in default-mode rendering a path element is emitted for every
link of the graph being rendered, even one whose path cannot be resolved; for
such a link the element's path data is silently the empty path (the `''`
substitute), with no rendering failure. (A dangling link reference never
reaches this stage: the layout invocation itself fails first.) -/
theorem sankey_unresolvable_link_emits_empty_path {R : Type} (p : SankeyProps R)
    (graph : ComputedGraph) :
    (defaultLinks p graph).length = graph.links.length
    ∧ ∀ l ∈ graph.links,
        sankeyLinkHorizontal p.sourceAccessor p.targetAccessor l = none →
        (renderLink p.linkProps (sankeyLinkHorizontal p.sourceAccessor p.targetAccessor l)
            l).d = PathDatum.empty := by
  constructor
  · unfold defaultLinks
    exact List.length_map _ _
  · intro l _ h
    simp [renderLink, h]

/-- C5 amended witness: on the unplaced-nodes computed graph the emitted
element count equals the link count and the unresolvable link's element
carries the empty path. -/
theorem sankey_unresolvable_link_emits_empty_path_witness :
    (defaultLinks exProps exUnplacedGraph).length = exUnplacedGraph.links.length
    ∧ (renderLink exProps.linkProps
        (sankeyLinkHorizontal exProps.sourceAccessor exProps.targetAccessor
          (exUnplacedGraph.links.headD dummyLink))
        (exUnplacedGraph.links.headD dummyLink)).d = PathDatum.empty :=
  ⟨(sankey_unresolvable_link_emits_empty_path exProps exUnplacedGraph).1,
   (sankey_unresolvable_link_emits_empty_path exProps exUnplacedGraph).2
     (exUnplacedGraph.links.headD dummyLink) (by decide) (by decide)⟩

/-- A dangling link reference makes the layout invocation itself fail with
the engine's `missing` error — before any rendering — and the component
propagates that failure to the caller unmodified. -/
theorem sankey_dangling_reference_fails_before_render :
    computeGraph exDanglingProps.toSankeyOptionProps exDanglingProps.root = Except.error 5
    ∧ Sankey exDanglingProps = Except.error 5 :=
  ⟨rfl, rfl⟩

/-- C6: in default-mode rendering a rect element is produced for a node if
and only if all four computed bounds are defined, in which case its
attributes are `x = x0`, `y = y0`, `width = x1 - x0`, `height = y1 - y0`;
any node with an undefined bound yields no rect (the component renders
`null` for it, which the node group silently drops). -/
theorem sankey_node_rect_iff_bounds_defined (np : NodeProps) (n : ComputedNode) :
    ((renderNode np n).isSome = true
        ↔ (n.x0.isSome = true ∧ n.x1.isSome = true
            ∧ n.y0.isSome = true ∧ n.y1.isSome = true))
    ∧ (∀ x0 x1 y0 y1, n.x0 = some x0 → n.x1 = some x1 → n.y0 = some y0 → n.y1 = some y1 →
        renderNode np n = some
          { fill := np.fill.getD DEFAULT_COLOR, x := x0, y := y0,
            width := x1 - x0, height := y1 - y0,
            stroke := np.stroke, strokeOpacity := np.strokeOpacity,
            strokeWidth := np.strokeWidth, fillOpacity := np.fillOpacity })
    ∧ ((n.x0 = none ∨ n.x1 = none ∨ n.y0 = none ∨ n.y1 = none) → renderNode np n = none)
    ∧ (∀ (R : Type) (p : SankeyProps R) (graph : ComputedGraph),
        defaultNodes p graph = graph.nodes.filterMap (renderNode p.nodeProps)) := by
  refine ⟨?_, ?_, ?_, fun R p graph => rfl⟩
  · cases h0 : n.x0 <;> cases h1 : n.x1 <;> cases h2 : n.y0 <;> cases h3 : n.y1 <;>
      simp [renderNode, h0, h1, h2, h3]
  · intro x0 x1 y0 y1 h0 h1 h2 h3
    simp [renderNode, h0, h1, h2, h3]
  · intro h
    cases h0 : n.x0 <;> cases h1 : n.x1 <;> cases h2 : n.y0 <;> cases h3 : n.y1 <;>
      simp_all [renderNode]

/-- C6 witness: a node with all four bounds defined yields exactly the rect
described by its bounds, and a node missing a bound yields none. -/
theorem sankey_node_rect_iff_bounds_defined_witness :
    exNodeFull.x0 = some ⟨0, 1⟩
    ∧ renderNode {} exNodeFull = some
        { fill := ({} : NodeProps).fill.getD DEFAULT_COLOR,
          x := ⟨0, 1⟩, y := ⟨0, 1⟩,
          width := (⟨24, 1⟩ : Frac) - ⟨0, 1⟩, height := (⟨5, 1⟩ : Frac) - ⟨0, 1⟩,
          stroke := ({} : NodeProps).stroke,
          strokeOpacity := ({} : NodeProps).strokeOpacity,
          strokeWidth := ({} : NodeProps).strokeWidth,
          fillOpacity := ({} : NodeProps).fillOpacity }
    ∧ renderNode {} { exNodeFull with y1 := none } = none :=
  ⟨rfl,
   (sankey_node_rect_iff_bounds_defined {} exNodeFull).2.1 ⟨0, 1⟩ ⟨24, 1⟩ ⟨0, 1⟩ ⟨5, 1⟩
     rfl rfl rfl rfl,
   (sankey_node_rect_iff_bounds_defined {} { exNodeFull with y1 := none }).2.2.1
     (Or.inr (Or.inr (Or.inr rfl)))⟩

/-- C7: the layout computation and the rendering are deterministic; two
invocations on structurally identical props (same input graph, same
configuration) produce identical computed graphs and identical output. -/
theorem sankey_layout_deterministic {R : Type} (p q : SankeyProps R) (h : p = q) :
    computeGraph p.toSankeyOptionProps p.root = computeGraph q.toSankeyOptionProps q.root
    ∧ Sankey p = Sankey q := by
  subst h
  exact ⟨rfl, rfl⟩

/-- C7 witness: two invocations on the example props agree. -/
theorem sankey_layout_deterministic_witness :
    exProps = exProps
    ∧ computeGraph exProps.toSankeyOptionProps exProps.root
        = computeGraph exProps.toSankeyOptionProps exProps.root
    ∧ Sankey exProps = Sankey exProps :=
  ⟨rfl, sankey_layout_deterministic exProps exProps rfl⟩

/-- C8: in default-mode rendering with no style-prop overrides supplied,
every emitted link path of any computed graph has `fill = "transparent"`,
`stroke = "#000"` and stroke opacity one half, and every emitted node rect
has `fill = "#000"`. -/
theorem sankey_default_style_props {R : Type} (p : SankeyProps R)
    (hl : p.linkProps = {}) (hn : p.nodeProps = {}) (graph : ComputedGraph) :
    (∀ a ∈ defaultLinks p graph,
        a.fill = "transparent" ∧ a.stroke = DEFAULT_COLOR ∧ a.strokeOpacity = ⟨1, 2⟩)
    ∧ ∀ r ∈ defaultNodes p graph, r.fill = DEFAULT_COLOR := by
  constructor
  · intro a ha
    unfold defaultLinks at ha
    rw [List.mem_map] at ha
    obtain ⟨l, -, rfl⟩ := ha
    rw [hl]
    exact ⟨rfl, rfl, rfl⟩
  · intro r hr
    unfold defaultNodes at hr
    rw [List.mem_filterMap] at hr
    obtain ⟨n, -, h2⟩ := hr
    rw [hn] at h2
    cases h0 : n.y0 <;> cases h1 : n.y1 <;> cases h3 : n.x0 <;> cases h4 : n.x1 <;>
      rw [renderNode] at h2 <;> simp_all
    exact h2.symm ▸ rfl

/-- C8 witness: on the example graph with no overrides, the first emitted
link path and node rect carry exactly the documented defaults. -/
theorem sankey_default_style_props_witness :
    exProps.linkProps = ({} : LinkProps)
    ∧ exProps.nodeProps = ({} : NodeProps)
    ∧ ((defaultLinks exProps exComputed).headD dummyPathAttrs).fill = "transparent"
    ∧ ((defaultLinks exProps exComputed).headD dummyPathAttrs).stroke = DEFAULT_COLOR
    ∧ ((defaultLinks exProps exComputed).headD dummyPathAttrs).strokeOpacity = ⟨1, 2⟩
    ∧ ((defaultNodes exProps exComputed).headD dummyRectAttrs).fill = DEFAULT_COLOR :=
  ⟨rfl, rfl,
   ((sankey_default_style_props exProps rfl rfl exComputed).1
     ((defaultLinks exProps exComputed).headD dummyPathAttrs) (by decide)).1,
   ((sankey_default_style_props exProps rfl rfl exComputed).1
     ((defaultLinks exProps exComputed).headD dummyPathAttrs) (by decide)).2.1,
   ((sankey_default_style_props exProps rfl rfl exComputed).1
     ((defaultLinks exProps exComputed).headD dummyPathAttrs) (by decide)).2.2,
   (sankey_default_style_props exProps rfl rfl exComputed).2
     ((defaultNodes exProps exComputed).headD dummyRectAttrs) (by decide)⟩

/-- C10: the `linkProps` and `nodeProps` passthroughs are spread after the
built-in defaults, so every property they supply replaces the default
entirely; in particular a supplied `linkProps.strokeWidth` replaces the
computed `Math.max(1, width)` value, bypassing the minimum-width guard. -/
theorem sankey_props_override_defaults (lp : LinkProps) (pd : Option PathDatum)
    (l : ComputedLink) (np : NodeProps) (n : ComputedNode) :
    (∀ s, lp.strokeWidth = some s → (renderLink lp pd l).strokeWidth = s)
    ∧ (∀ c, lp.fill = some c → (renderLink lp pd l).fill = c)
    ∧ (∀ c, lp.stroke = some c → (renderLink lp pd l).stroke = c)
    ∧ (∀ o, lp.strokeOpacity = some o → (renderLink lp pd l).strokeOpacity = o)
    ∧ (∀ c r, np.fill = some c → renderNode np n = some r → r.fill = c) := by
  refine ⟨?_, ?_, ?_, ?_, ?_⟩
  · intro s h
    simp [renderLink, h]
  · intro c h
    simp [renderLink, h]
  · intro c h
    simp [renderLink, h]
  · intro o h
    simp [renderLink, h]
  · intro c r hc hr
    cases h0 : n.y0 <;> cases h1 : n.y1 <;> cases h3 : n.x0 <;> cases h4 : n.x1 <;>
      rw [renderNode] at hr <;> simp_all
    subst hr
    rfl

/-- C10 witness: a supplied stroke width of one half replaces the computed
value and the emitted stroke width is below 1, bypassing the guard. -/
theorem sankey_props_override_defaults_witness :
    exHalfLinkProps.strokeWidth = some ⟨1, 2⟩
    ∧ (renderLink exHalfLinkProps none dummyLink).strokeWidth = ⟨1, 2⟩
    ∧ ¬(1 : Frac) ≤ (renderLink exHalfLinkProps none dummyLink).strokeWidth :=
  ⟨rfl,
   (sankey_props_override_defaults exHalfLinkProps none dummyLink {} exNodeFull).1
     ⟨1, 2⟩ rfl,
   by decide⟩

/-- C9: an explicitly supplied falsy option value is treated identically to
omission: supplying `nodeWidth = 0`, `nodePadding = 0` or `iterations = 0`
leaves the corresponding setter uninvoked, and the engine's built-in default
applies instead of the supplied zero. -/
theorem sankey_falsy_zero_treated_as_omission (p : SankeyOptionProps) :
    (setterCalls { p with nodeWidth := some ⟨0, 1⟩ }).nodeWidth = false
    ∧ effNodeWidth { p with nodeWidth := some ⟨0, 1⟩ } = ({} : EngineConfig).nodeWidth
    ∧ (setterCalls { p with nodePadding := some ⟨0, 1⟩ }).nodePadding = false
    ∧ effNodePadding { p with nodePadding := some ⟨0, 1⟩ } = ({} : EngineConfig).nodePadding
    ∧ (setterCalls { p with iterations := some 0 }).iterations = false
    ∧ effIterations { p with iterations := some 0 } = ({} : EngineConfig).iterations :=
  ⟨rfl, rfl, rfl, rfl, rfl, rfl⟩

end VisxSankey
